import Mathlib

/-!
Verification of `src/main.ts` (DenoWebGpuSample): a Deno WebGPU sample that
renders a constant-green 800×600 frame with a compute shader, reads the pixel
buffer back to the host, presents it to an SDL window, and loops over window
events.

The embedding below translates the source into Lean:
* the WGSL compute shader body and its dispatch grid (`shaderMain`,
  `invocationList`, `dispatchOutput`);
* the renderer state (`RendererState`), `render` and `update`;
* the byte view of the mapped staging buffer (`bufferByte`, `pull`) together
  with the debug summary computations (`countNonZero`, `firstNonZeroIndex`)
  mirroring `data.filter(b => b !== 0).length` and
  `data.findIndex(b => b !== 0)`;
* the step trace of one `update()` call (`updateStages`, `executedStages`)
  used for ordering and failure-path claims;
* the JS typed-array view semantics around `unmap` (`MappedView`);
* the event loop (`loop`) and the top-level try/catch/finally (`runMain`).

Machine integers: the shader writes `u32` values; all values involved fit in
32 bits (the only written constant is 0xFF00FF00), so words are modelled as
`Nat`. Buffer contents are total functions `Nat → Nat` from word index to
word value; bytes are read little-endian as WebGPU mandates for mapped
buffers viewed through `Uint8Array`.
-/

/-- The constant the shader stores: `0xFF00FF00u` (ABGR opaque green). -/
def green : Nat := 0xFF00FF00

/-- The WGSL shader body (src/main.ts lines 60–65):
`index = global_id.y * 800 + global_id.x`, and the store
`output[index] = 0xFF00FF00u` happens only under the guard
`index < 800u * 600u`.  Returns `some (index, value)` when the invocation
writes, `none` when it is a no-op. -/
def shaderMain (x y : Nat) : Option (Nat × Nat) :=
  let index := y * 800 + x
  if index < 800 * 600 then some (index, green) else none

/-- `Math.ceil(800 / 16)` from `dispatchWorkgroups(Math.ceil(800/16), ...)`. -/
def workgroupCountX : Nat := (800 + 15) / 16

/-- `Math.ceil(600 / 16)` from `dispatchWorkgroups(..., Math.ceil(600/16))`. -/
def workgroupCountY : Nat := (600 + 15) / 16

/-- All global invocation ids of the dispatch: the grid is
`workgroupCountX × workgroupCountY` workgroups of size 16×16, so global ids
range over `x < workgroupCountX*16`, `y < workgroupCountY*16`.  The list
enumerates the pairs (the GPU order is irrelevant: all writes of this shader
store the same constant, see `foldl_applyInvocation_preserved`). -/
def invocationList : List (Nat × Nat) :=
  (List.range (workgroupCountX * 16 * (workgroupCountY * 16))).map
    (fun k => (k % (workgroupCountX * 16), k / (workgroupCountX * 16)))

/-- Effect of one shader invocation on the output buffer (word-indexed). -/
def applyInvocation (buf : Nat → Nat) (p : Nat × Nat) : Nat → Nat :=
  match shaderMain p.1 p.2 with
  | none => buf
  | some (i, v) => fun j => if j = i then v else buf j

/-- The output buffer contents after the whole compute dispatch has
completed (all invocations executed). -/
def dispatchOutput (buf : Nat → Nat) : Nat → Nat :=
  invocationList.foldl applyInvocation buf

lemma shaderMain_eq_some {x y i v : Nat} (h : shaderMain x y = some (i, v)) :
    i = y * 800 + x ∧ i < 800 * 600 ∧ v = green := by
  simp only [shaderMain] at h
  split at h
  · rename_i hg
    obtain ⟨rfl, rfl⟩ := Prod.mk.injEq _ _ _ _ ▸ Option.some.injEq _ _ ▸ h
    exact ⟨rfl, hg, rfl⟩
  · exact absurd h (by simp)

lemma foldl_applyInvocation_preserved (l : List (Nat × Nat)) (buf : Nat → Nat)
    (i : Nat) (h : buf i = green) :
    (l.foldl applyInvocation buf) i = green := by
  induction l generalizing buf with
  | nil => exact h
  | cons p rest ih =>
    rw [List.foldl_cons]
    apply ih
    unfold applyInvocation
    cases hs : shaderMain p.1 p.2 with
    | none => exact h
    | some w =>
      obtain ⟨iw, vw⟩ := w
      have hv := (shaderMain_eq_some hs).2.2
      by_cases hij : i = iw <;> simp [hij, hv, h]

lemma foldl_applyInvocation_writes (l : List (Nat × Nat)) (buf : Nat → Nat)
    (i : Nat) (h : ∃ p ∈ l, shaderMain p.1 p.2 = some (i, green)) :
    (l.foldl applyInvocation buf) i = green := by
  induction l generalizing buf with
  | nil => simp at h
  | cons p rest ih =>
    obtain ⟨q, hq, hwrites⟩ := h
    rw [List.foldl_cons]
    rcases List.mem_cons.mp hq with rfl | hqrest
    · apply foldl_applyInvocation_preserved
      unfold applyInvocation
      rw [hwrites]
      simp
    · exact ih _ ⟨q, hqrest, hwrites⟩

lemma foldl_applyInvocation_untouched (l : List (Nat × Nat)) (buf : Nat → Nat)
    (i : Nat) (h : ∀ p ∈ l, ∀ v, shaderMain p.1 p.2 ≠ some (i, v)) :
    (l.foldl applyInvocation buf) i = buf i := by
  induction l generalizing buf with
  | nil => rfl
  | cons p rest ih =>
    have hstep : applyInvocation buf p i = buf i := by
      unfold applyInvocation
      cases hs : shaderMain p.1 p.2 with
      | none => rfl
      | some w =>
        obtain ⟨iw, vw⟩ := w
        have : i ≠ iw := by
          intro hEq
          exact h p (List.mem_cons_self p rest) vw (hEq ▸ hs)
        simp [this]
    rw [List.foldl_cons, ih _ (fun q hq => h q (List.mem_cons_of_mem p hq)), hstep]

lemma workgroupCountX_mul : workgroupCountX * 16 = 800 := by decide

lemma workgroupCountY_mul : workgroupCountY * 16 = 608 := by decide

/-- Every texel index below 800*600 is written (with `green`) by some
invocation of the dispatch grid. -/
lemma dispatch_coverage (i : Nat) (h : i < 800 * 600) :
    ∃ p ∈ invocationList, shaderMain p.1 p.2 = some (i, green) := by
  refine ⟨(i % 800, i / 800), ?_, ?_⟩
  · unfold invocationList
    rw [workgroupCountX_mul, workgroupCountY_mul]
    refine List.mem_map.mpr ⟨i, List.mem_range.mpr (by omega), rfl⟩
  · unfold shaderMain
    have hidx : i / 800 * 800 + i % 800 = i := by omega
    simp only [hidx]
    simp [h]

/-- Characterisation of the buffer after one complete dispatch: every word
with index below 800*600 holds `green`; words beyond are untouched. -/
theorem dispatchOutput_eq (buf : Nat → Nat) (i : Nat) :
    dispatchOutput buf i = if i < 800 * 600 then green else buf i := by
  by_cases h : i < 800 * 600
  · rw [if_pos h]
    exact foldl_applyInvocation_writes _ _ _ (dispatch_coverage i h)
  · rw [if_neg h]
    apply foldl_applyInvocation_untouched
    intro p _ v hsome
    exact h ((shaderMain_eq_some hsome).2.1)

attribute [irreducible] dispatchOutput

/-! ## Renderer state, `render`, and the readback (`update`) -/

/-- Little-endian byte `j` of the word-indexed buffer, as seen through
`new Uint8Array(arrayBuffer)` over the mapped staging buffer: byte `j`
belongs to word `j / 4` and is lane `j % 4` (least significant first). -/
def bufferByte (buf : Nat → Nat) (j : Nat) : Nat :=
  buf (j / 4) / 256 ^ (j % 4) % 256

/-- The host-side byte sequence obtained from a mapped staging buffer:
`size` bytes (the `copyBufferToBuffer` size, 800*600*4), reads past the end
are out of range (modelled as 0, they are not part of the snapshot). -/
structure PixelSnapshot where
  size : Nat
  byte : Nat → Nat

/-- The readback path of `update()` (src/main.ts lines 103–118): create a
staging buffer of size 800*600*4, copy the whole render buffer into it at
offset 0, submit, `mapAsync(READ)`, view the mapped range as bytes. -/
def pull (renderBuffer : Nat → Nat) : PixelSnapshot :=
  { size := 800 * 600 * 4
    byte := fun j => if j < 800 * 600 * 4 then bufferByte renderBuffer j else 0 }

/-- `data.filter(byte => byte !== 0).length`, computed cumulatively over the
first `n` bytes. -/
def countNonZeroUpTo (snap : PixelSnapshot) : Nat → Nat
  | 0 => 0
  | n + 1 => countNonZeroUpTo snap n + (if snap.byte n ≠ 0 then 1 else 0)

/-- `data.filter(byte => byte !== 0).length` over the whole snapshot. -/
def countNonZero (snap : PixelSnapshot) : Nat :=
  countNonZeroUpTo snap snap.size

/-- Bounded linear search from index `j`, mirroring `Array.findIndex`:
returns the index of the first byte that is not 0, or `-1` if none exists
within `fuel` further positions. -/
def findNonZeroFrom (b : Nat → Nat) (j fuel : Nat) : Int :=
  match fuel with
  | 0 => -1
  | f + 1 => if b j ≠ 0 then (j : Int) else findNonZeroFrom b (j + 1) f

/-- `data.findIndex(byte => byte !== 0)`. -/
def firstNonZeroIndex (snap : PixelSnapshot) : Int :=
  findNonZeroFrom snap.byte 0 snap.size

/-- The mutable fields of `SimpleRenderer` relevant to the claims, plus an
instrumentation counter for `device.createComputePipeline` calls.
`renderBuffer` holds the storage-buffer words (`u32`-indexed). -/
structure RendererState where
  renderBuffer : Nat → Nat
  frameCount : Nat
  pipelinesCompiled : Nat

/-- State after the constructor: `createBuffer` zero-initialises the storage
buffer (WebGPU guarantees zeroed buffers), `frameCount = 0`, and no pipeline
has been compiled yet (the constructor creates none). -/
def initialRendererState : RendererState :=
  { renderBuffer := fun _ => 0, frameCount := 0, pipelinesCompiled := 0 }

/-- `SimpleRenderer.render()` (src/main.ts lines 38–95): builds a bind group
layout, **compiles a fresh compute pipeline**, dispatches
`Math.ceil(800/16) × Math.ceil(600/16)` workgroups over `renderBuffer`,
submits, and finally increments `frameCount`. -/
def render (st : RendererState) : RendererState :=
  { renderBuffer := dispatchOutput st.renderBuffer
    frameCount := st.frameCount + 1
    pipelinesCompiled := st.pipelinesCompiled + 1 }

/-- The data-producing part of `SimpleRenderer.update()` (lines 97–146):
`render()` then the readback (`pull`).  Returns the new state and the byte
view of the mapped staging buffer. -/
def update (st : RendererState) : RendererState × PixelSnapshot :=
  let st' := render st
  (st', pull st'.renderBuffer)

lemma update_snapshot_byte (st : RendererState) (j : Nat) :
    (update st).2.byte j =
      if j < 800 * 600 * 4 then bufferByte (dispatchOutput st.renderBuffer) j
      else 0 := rfl

/-- Byte values of the snapshot after a dispatch: little-endian lanes of
`0xFF00FF00` are `00 FF 00 FF`, so byte `j` is 255 at odd `j` and 0 at even
`j` (for `j` within the frame). -/
lemma update_snapshot_byte_parity (st : RendererState) (j : Nat)
    (hj : j < 800 * 600 * 4) :
    (update st).2.byte j = if j % 2 = 1 then 255 else 0 := by
  rw [update_snapshot_byte, if_pos hj]
  unfold bufferByte
  rw [dispatchOutput_eq, if_pos (by omega : j / 4 < 800 * 600)]
  have h4 : j % 4 = 0 ∨ j % 4 = 1 ∨ j % 4 = 2 ∨ j % 4 = 3 := by omega
  rcases h4 with h | h | h | h
  · rw [h, if_neg (by omega)]
    norm_num [green]
  · rw [h, if_pos (by omega)]
    norm_num [green]
  · rw [h, if_neg (by omega)]
    norm_num [green]
  · rw [h, if_pos (by omega)]
    norm_num [green]

lemma update_countNonZeroUpTo (st : RendererState) (n : Nat)
    (hn : n ≤ 800 * 600 * 4) :
    countNonZeroUpTo (update st).2 n = n / 2 := by
  induction n with
  | zero => rfl
  | succ m ih =>
    rw [countNonZeroUpTo, ih (by omega),
      update_snapshot_byte_parity st m (by omega)]
    by_cases h : m % 2 = 1 <;> simp [h] <;> omega

/-- The "Non-zero bytes" debug summary of `update()` evaluates to 960000:
every texel contributes the two 0xFF lanes of `00 FF 00 FF`. -/
lemma update_countNonZero (st : RendererState) :
    countNonZero (update st).2 = 960000 :=
  update_countNonZeroUpTo st (800 * 600 * 4) (le_refl _)

/-- The "First non-zero byte index" debug summary of `update()` evaluates
to 1: byte 0 is the 00 lane of 0xFF00FF00, byte 1 is 0xFF. -/
lemma update_firstNonZeroIndex (st : RendererState) :
    firstNonZeroIndex (update st).2 = 1 := by
  have hsize : (update st).2.size = 1919998 + 1 + 1 := rfl
  have hb0 : (update st).2.byte 0 = 0 := by
    rw [update_snapshot_byte_parity st 0 (by norm_num)]
    norm_num
  have hb1 : (update st).2.byte 1 = 255 := by
    rw [update_snapshot_byte_parity st 1 (by norm_num)]
    norm_num
  rw [firstNonZeroIndex, hsize, findNonZeroFrom, if_neg (by simp [hb0]),
    findNonZeroFrom, if_pos (by simp [hb1])]
  norm_num

/-! ## The step trace of one `update()` call

`updateStages` lists, in program order, the externally visible steps of a
single `SimpleRenderer.update()` call (src/main.ts lines 97–146), with the
two steps of the inner `render()` call (lines 38–95) inlined at the front.
`executedStages failAt` gives the steps that complete when the step
`failAt` throws: execution jumps from the throw site to the `catch` at the
end of `update` (lines 143–145), skipping everything after the failing
step — there is no `finally` block in `update`. -/

inductive UpdateStage where
  /-- `render()`: encode the compute pass and `queue.submit` (lines 80–87). -/
  | dispatchSubmit
  /-- `render()`: `this.frameCount++` (line 94, after the try block). -/
  | frameCountIncrement
  /-- `createBuffer` for the staging buffer (line 103). -/
  | createStagingBuffer
  /-- `copyBufferToBuffer` + `queue.submit` (lines 108–114). -/
  | copySubmit
  /-- `await stagingBuffer.mapAsync(GPUMapMode.READ)` (line 116). -/
  | mapAwait
  /-- the three `console.log` buffer-data summary lines (lines 120–123). -/
  | logSummary
  /-- `await this.saveRenderedImage(...)` — the encoder step (line 125). -/
  | saveImage
  /-- `createTexture` + `sdlTexture.update(data, 800*4)` (lines 127–133). -/
  | textureUpload
  /-- `canvas.clear()` (line 135). -/
  | canvasClear
  /-- `canvas.copy(sdlTexture, srcRect, dstRect)` (line 138). -/
  | canvasCopy
  /-- `canvas.present()` (line 139). -/
  | canvasPresent
  /-- `stagingBuffer.unmap()` (line 141, last statement of the try block). -/
  | unmapStaging
deriving DecidableEq

/-- The steps of one `update()` call in program order. -/
def updateStages : List UpdateStage :=
  [UpdateStage.dispatchSubmit, UpdateStage.frameCountIncrement,
   UpdateStage.createStagingBuffer, UpdateStage.copySubmit,
   UpdateStage.mapAwait, UpdateStage.logSummary, UpdateStage.saveImage,
   UpdateStage.textureUpload, UpdateStage.canvasClear, UpdateStage.canvasCopy,
   UpdateStage.canvasPresent, UpdateStage.unmapStaging]

/-- Steps that complete in one `update()` call when `failAt` throws
(`none` = no failure).  A throw transfers control to the `catch` block at
the end of `update`, so exactly the steps strictly before the failing one
complete. -/
def executedStages (failAt : Option UpdateStage) : List UpdateStage :=
  match failAt with
  | none => updateStages
  | some s => updateStages.takeWhile (fun t => t ≠ s)

/-! ## The mapped-range view and `unmap`

`const data = new Uint8Array(arrayBuffer)` (line 118) constructs a typed
array *view* over the `ArrayBuffer` returned by `getMappedRange()`; it does
not copy. Per the WebGPU specification, `stagingBuffer.unmap()` detaches
that `ArrayBuffer`, and per the JS specification a typed array over a
detached buffer has length 0 and yields no elements. -/

structure MappedView where
  /-- whether the backing `ArrayBuffer` has been detached by `unmap()` -/
  detached : Bool
  /-- the bytes of the backing mapped range -/
  backing : Nat → Nat
  /-- the byte length of the backing mapped range -/
  backingSize : Nat

/-- `data.length`: 0 once the backing buffer is detached. -/
def viewLength (v : MappedView) : Nat :=
  if v.detached then 0 else v.backingSize

/-- `data[j]`: reads through to the mapped memory while attached; a view
over a detached buffer has no elements (modelled as 0). -/
def viewByte (v : MappedView) (j : Nat) : Nat :=
  if v.detached then 0
  else if j < v.backingSize then v.backing j else 0

/-- The `data` view during `update()`, between `getMappedRange()` and
`unmap()`: attached, over the staging copy of the dispatched buffer. -/
def dataViewBeforeUnmap (renderBuffer : Nat → Nat) : MappedView :=
  { detached := false
    backing := fun j => bufferByte renderBuffer j
    backingSize := 800 * 600 * 4 }

/-- The same `data` view after `stagingBuffer.unmap()` (line 141): the
backing `ArrayBuffer` is detached. -/
def dataViewAfterUnmap (renderBuffer : Nat → Nat) : MappedView :=
  { dataViewBeforeUnmap renderBuffer with detached := true }

/-! ## The event loop and the top level -/

/-- The event kinds the `switch` in `loop` distinguishes
(src/main.ts lines 196–215): `EventType.Draw`, `EventType.Quit`,
`EventType.KeyDown`, `EventType.MouseMotion`, and the `default` arm. -/
inductive LoopEvent where
  | draw
  | quit
  | keyDown
  | mouseMotion
  | unhandled
deriving DecidableEq

/-- What one iteration of the loop did with its event. -/
inductive FrameOutcome where
  /-- a Draw event whose `update()` completed its try block -/
  | updated
  /-- a Draw event whose `update()` failed internally; the failure was
  caught and logged by `update`'s own catch (lines 143–145) -/
  | updateFailed
  /-- KeyDown / MouseMotion / default: no-op -/
  | ignored
deriving DecidableEq

/-- Why the loop returned. -/
inductive ExitReason where
  /-- `event.done` was true: the event stream closed (line 189) -/
  | streamEnd
  /-- a Quit event: `return` (line 203) -/
  | quitEvent
deriving DecidableEq

/-- `loop(renderer)` (src/main.ts lines 183–225) over a finite event
sequence.  Each event carries a flag saying whether a failure is injected
into its processing (a throw inside `update()` for a Draw event).  `update`
catches every error it raises itself, so a failed frame never propagates
out of the iteration; Quit returns immediately; all other events are
no-ops. Returns the per-event outcomes in order, and the exit reason. -/
def loop : List (LoopEvent × Bool) → List FrameOutcome × ExitReason
  | [] => ([], ExitReason.streamEnd)
  | (LoopEvent.draw, fail) :: rest =>
    let r := loop rest
    ((if fail then FrameOutcome.updateFailed else FrameOutcome.updated) :: r.1,
      r.2)
  | (LoopEvent.quit, _) :: _ => ([], ExitReason.quitEvent)
  | (LoopEvent.keyDown, _) :: rest =>
    let r := loop rest
    (FrameOutcome.ignored :: r.1, r.2)
  | (LoopEvent.mouseMotion, _) :: rest =>
    let r := loop rest
    (FrameOutcome.ignored :: r.1, r.2)
  | (LoopEvent.unhandled, _) :: rest =>
    let r := loop rest
    (FrameOutcome.ignored :: r.1, r.2)

/-- How startup went: `getDevice()` either succeeds, or throws
`"No appropriate GPUAdapter found"`, or `requestDevice` fails. -/
inductive StartupResult where
  | ok
  | noAdapter
  | deviceRequestFailed
deriving DecidableEq

/-- The top level of src/main.ts (lines 228–245): `try { getDevice();
new SimpleRenderer(); init(); loop() } catch (error) { console.error("Fatal
error:", ...) } finally { Deno.exit(0) }`.  Returns the process exit status
and whether a fatal error was reported on the console. -/
def runMain (s : StartupResult) (events : List (LoopEvent × Bool)) :
    Nat × Bool :=
  match s with
  | StartupResult.ok =>
    let _ := loop events
    (0, false)
  | _ => (0, true)

/-! ## Helper lemmas shared by the claim theorems -/

/-- The four little-endian lanes of a texel of the snapshot: `00 FF 00 FF`
(the bytes of `0xFF00FF00`). -/
lemma update_snapshot_texel (st : RendererState) (k : Nat)
    (hk : k < 800 * 600) :
    (update st).2.byte (4 * k) = 0x00 ∧
    (update st).2.byte (4 * k + 1) = 0xFF ∧
    (update st).2.byte (4 * k + 2) = 0x00 ∧
    (update st).2.byte (4 * k + 3) = 0xFF := by
  refine ⟨?_, ?_, ?_, ?_⟩
  · rw [update_snapshot_byte_parity st _ (by omega), if_neg (by omega)]
  · rw [update_snapshot_byte_parity st _ (by omega), if_pos (by omega)]
  · rw [update_snapshot_byte_parity st _ (by omega), if_neg (by omega)]
  · rw [update_snapshot_byte_parity st _ (by omega), if_pos (by omega)]

/-- The loop never drains past the first Quit event. -/
lemma loop_append_quit (pre : List (LoopEvent × Bool)) (b : Bool)
    (post : List (LoopEvent × Bool)) :
    loop (pre ++ (LoopEvent.quit, b) :: post) =
      loop (pre ++ [(LoopEvent.quit, b)]) := by
  induction pre with
  | nil => simp [loop]
  | cons e pre ih =>
    obtain ⟨ev, f⟩ := e
    cases ev <;> simp [loop, ih]

/-- If no event before the Quit is itself a Quit, the loop exits because of
that Quit event. -/
lemma loop_quit_exit (pre : List (LoopEvent × Bool)) (b : Bool)
    (post : List (LoopEvent × Bool))
    (h : LoopEvent.quit ∉ pre.map Prod.fst) :
    (loop (pre ++ (LoopEvent.quit, b) :: post)).2 = ExitReason.quitEvent := by
  induction pre with
  | nil => simp [loop]
  | cons e pre ih =>
    obtain ⟨ev, f⟩ := e
    rw [List.map_cons] at h
    have hev : ev ≠ LoopEvent.quit := by
      intro hEq
      exact h (hEq ▸ List.mem_cons_self _ _)
    have htail : LoopEvent.quit ∉ pre.map Prod.fst := by
      intro hm
      exact h (List.mem_cons_of_mem _ hm)
    cases ev with
    | draw => simpa [loop] using ih htail
    | quit => exact absurd rfl hev
    | keyDown => simpa [loop] using ih htail
    | mouseMotion => simpa [loop] using ih htail
    | unhandled => simpa [loop] using ih htail

/-! ## The claims -/

/-- C2: for every compute invocation of the shader, a write to the output
buffer occurs only when the linear index `y*width + x` is below
`width*height` (first conjunct: any performed write targets exactly that
in-bounds index), and consequently the whole dispatch — which covers the
grid `ceil(800/16)*16 × ceil(600/16)*16 = 800 × 608`, 608 exceeding the
height because 600 is not a multiple of the 16×16 workgroup size — never
changes any word at an index `≥ width*height` (second conjunct: every
out-of-range invocation is a no-op, so no out-of-bounds write happens). -/
theorem C2_bounds_guard :
    (∀ x y i v, shaderMain x y = some (i, v) →
      i = y * 800 + x ∧ i < 800 * 600) ∧
    (∀ buf i, 800 * 600 ≤ i → dispatchOutput buf i = buf i) := by
  constructor
  · intro x y i v h
    exact ⟨(shaderMain_eq_some h).1, (shaderMain_eq_some h).2.1⟩
  · intro buf i h
    rw [dispatchOutput_eq, if_neg (by omega)]

theorem C2_bounds_guard_witness :
    (0 = 0 * 800 + 0 ∧ 0 < 800 * 600) ∧
    dispatchOutput (fun _ => 37) (800 * 600) = 37 :=
  ⟨C2_bounds_guard.1 0 0 0 green (by decide),
   C2_bounds_guard.2 (fun _ => 37) (800 * 600) (le_refl _)⟩

/-- C1 counterexample: on the fixed 800×600 frame, `render()` followed by
`pull()` yields the byte sequence `00 FF 00 FF …` (little-endian
`0xFF00FF00`), whose first non-zero byte index is 1, not 0 — so the claimed
summary (non-zero byte count 1,920,000 and first non-zero index 0) is false
as stated. -/
theorem C1_green_frame_counterexample :
    ¬ (countNonZero (update initialRendererState).2 = 1920000 ∧
       firstNonZeroIndex (update initialRendererState).2 = 0) := by
  intro h
  have h1 := update_firstNonZeroIndex initialRendererState
  rw [h.2] at h1
  exact absurd h1 (by norm_num)

/-- C1 (amended): for the fixed 800×600 frame descriptor with the shader
that fills ABGR opaque green, `render()` followed by `pull()` returns a
snapshot of length 1,920,000 bytes in which every 4-byte texel equals the
constant `0xFF00FF00` (little-endian bytes `00 FF 00 FF`); consequently the
non-zero byte count is 960,000 (two 0xFF lanes per texel) and the index of
the first non-zero byte is 1. -/
theorem C1_green_frame (st : RendererState) :
    (update st).2.size = 1920000 ∧
    (∀ k, k < 800 * 600 →
      dispatchOutput st.renderBuffer k = green ∧
      ((update st).2.byte (4 * k) = 0x00 ∧
       (update st).2.byte (4 * k + 1) = 0xFF ∧
       (update st).2.byte (4 * k + 2) = 0x00 ∧
       (update st).2.byte (4 * k + 3) = 0xFF)) ∧
    countNonZero (update st).2 = 960000 ∧
    firstNonZeroIndex (update st).2 = 1 := by
  refine ⟨rfl, ?_, update_countNonZero st, update_firstNonZeroIndex st⟩
  intro k hk
  exact ⟨by rw [dispatchOutput_eq, if_pos hk], update_snapshot_texel st k hk⟩

theorem C1_green_frame_witness :
    (update initialRendererState).2.size = 1920000 ∧
    dispatchOutput initialRendererState.renderBuffer 0 = green ∧
    (update initialRendererState).2.byte 1 = 0xFF :=
  ⟨(C1_green_frame initialRendererState).1,
   ((C1_green_frame initialRendererState).2.1 0 (by norm_num)).1,
   ((C1_green_frame initialRendererState).2.1 0 (by norm_num)).2.2.1⟩

/-- C3: running `render()` followed by `pull()` twice in sequence, with no
external state change between the two cycles, yields byte-for-byte
identical snapshots: the second dispatch rewrites every in-frame word with
the same constant, so the second cycle's snapshot equals the first's. -/
theorem C3_repeat_identical (st : RendererState) :
    (update (update st).1).2 = (update st).2 := by
  show pull (dispatchOutput (dispatchOutput st.renderBuffer)) =
    pull (dispatchOutput st.renderBuffer)
  unfold pull
  congr 1
  funext j
  by_cases hj : j < 800 * 600 * 4
  · rw [if_pos hj, if_pos hj]
    unfold bufferByte
    rw [dispatchOutput_eq, dispatchOutput_eq,
      if_pos (by omega : j / 4 < 800 * 600),
      if_pos (by omega : j / 4 < 800 * 600)]
  · rw [if_neg hj, if_neg hj]

/-- C4 counterexample: `render()` creates the bind group layout, shader
module and compute pipeline inside the call (src/main.ts lines 42–70), so
after two `render()` calls two pipelines have been compiled — the pipeline
is not compiled once and reused. -/
theorem C4_pipeline_counterexample :
    (render (render initialRendererState)).pipelinesCompiled = 2 ∧
    (render (render initialRendererState)).pipelinesCompiled ≠ 1 := by
  exact ⟨rfl, by decide⟩

/-- C4 (amended): nothing is cached between `render()` calls — every call
compiles a fresh compute pipeline, so after `n` frames exactly `n`
pipelines have been compiled (and `frameCount` is `n`). -/
theorem C4_pipeline_per_call (n : Nat) :
    (render^[n] initialRendererState).pipelinesCompiled = n ∧
    (render^[n] initialRendererState).frameCount = n := by
  induction n with
  | zero => exact ⟨rfl, rfl⟩
  | succ m ih =>
    rw [Function.iterate_succ_apply']
    refine ⟨?_, ?_⟩
    · show (render^[m] initialRendererState).pipelinesCompiled + 1 = m + 1
      rw [ih.1]
    · show (render^[m] initialRendererState).frameCount + 1 = m + 1
      rw [ih.2]

/-- C5 counterexample: the `data` array is `new Uint8Array(arrayBuffer)`
over the mapped range — a view, not a copy — so `stagingBuffer.unmap()`
detaches it: its observable length drops from 1,920,000 to 0, i.e. the
bytes are *not* stable and unchanged after unmap. -/
theorem C5_detach_counterexample :
    ¬ (viewLength (dataViewAfterUnmap (fun _ => green)) =
       viewLength (dataViewBeforeUnmap (fun _ => green))) := by
  decide

/-- C5 (amended): the bytes obtained from the mapped staging buffer are a
live view of the mapped memory, not a detached copy.  While mapped the view
has length 1,920,000 and reads through to the staging bytes; every consumer
(debug summary, encoder, texture upload, present) runs before
`unmap()`; after `unmap()` the view is detached — length 0, no elements —
so no stable snapshot survives the frame. -/
theorem C5_view_not_detached (buf : Nat → Nat) :
    viewLength (dataViewBeforeUnmap buf) = 1920000 ∧
    (∀ j, j < 1920000 → viewByte (dataViewBeforeUnmap buf) j = bufferByte buf j) ∧
    viewLength (dataViewAfterUnmap buf) = 0 ∧
    (∀ j, viewByte (dataViewAfterUnmap buf) j = 0) ∧
    List.Sublist
      [UpdateStage.logSummary, UpdateStage.saveImage, UpdateStage.textureUpload,
       UpdateStage.canvasPresent, UpdateStage.unmapStaging] updateStages := by
  refine ⟨rfl, ?_, rfl, ?_, by decide⟩
  · intro j hj
    simp [viewByte, dataViewBeforeUnmap]
    omega
  · intro j
    simp [viewByte, dataViewAfterUnmap, dataViewBeforeUnmap]

theorem C5_view_not_detached_witness :
    viewLength (dataViewAfterUnmap (fun _ => green)) = 0 ∧
    viewByte (dataViewBeforeUnmap (fun _ => green)) 5 =
      bufferByte (fun _ => green) 5 :=
  ⟨(C5_view_not_detached (fun _ => green)).2.2.1,
   (C5_view_not_detached (fun _ => green)).2.1 5 (by norm_num)⟩

/-- C6 counterexample: the claimed order render → pull → present → encode →
increment-frame-counter does not occur as a subsequence of the actual
`update()` step trace: `frameCount++` runs inside `render()` before the
readback, and the encoder (`saveRenderedImage`) runs before the present. -/
theorem C6_order_counterexample :
    ¬ List.Sublist
      [UpdateStage.mapAwait, UpdateStage.canvasPresent, UpdateStage.saveImage,
       UpdateStage.frameCountIncrement] updateStages := by
  decide

/-- C6 (amended): processing a Redraw event performs, in this order:
render (compute dispatch + submit), then the frame-counter increment (it
happens at the end of `render()`, *before* the readback, not after the
cycle), then pull (copy, map), then the encoder step, then the present
sequence (texture upload, clear, copy, present), then unmap; the counter is
incremented exactly once per cycle. -/
theorem C6_update_order :
    List.Sublist
      [UpdateStage.dispatchSubmit, UpdateStage.frameCountIncrement,
       UpdateStage.copySubmit, UpdateStage.mapAwait, UpdateStage.saveImage,
       UpdateStage.textureUpload, UpdateStage.canvasClear,
       UpdateStage.canvasCopy, UpdateStage.canvasPresent,
       UpdateStage.unmapStaging] updateStages ∧
    updateStages.count UpdateStage.frameCountIncrement = 1 := by
  decide

/-- C7: a failure injected into the processing of one Redraw event is
caught (by `update`'s own catch block) and only logged: the loop's exit
reason is unaffected by the failure, the failed frame is recorded and the
loop goes on — in particular a failing Draw followed by a clean Draw yields
one failed and one successful frame, and processing continues with the rest
of the events. -/
theorem C7_loop_resilience (rest : List (LoopEvent × Bool)) :
    (∀ fail, (loop ((LoopEvent.draw, fail) :: rest)).2 = (loop rest).2) ∧
    loop ((LoopEvent.draw, true) :: (LoopEvent.draw, false) :: rest) =
      (FrameOutcome.updateFailed :: FrameOutcome.updated :: (loop rest).1,
        (loop rest).2) := by
  constructor
  · intro fail
    simp [loop]
  · simp [loop]

/-- C8: a Quit event anywhere in the event sequence makes the loop return
within that iteration: the result does not depend on the pending events
after the Quit (they are never drained), and — when the Quit is the first
Quit — the loop's exit reason is precisely the Quit event. -/
theorem C8_quit_terminates (pre : List (LoopEvent × Bool)) (b : Bool)
    (post : List (LoopEvent × Bool)) :
    loop (pre ++ (LoopEvent.quit, b) :: post) =
      loop (pre ++ [(LoopEvent.quit, b)]) ∧
    (LoopEvent.quit ∉ pre.map Prod.fst →
      (loop (pre ++ (LoopEvent.quit, b) :: post)).2 = ExitReason.quitEvent) :=
  ⟨loop_append_quit pre b post, loop_quit_exit pre b post⟩

theorem C8_quit_terminates_witness :
    loop ([(LoopEvent.draw, false)] ++ (LoopEvent.quit, false) ::
        [(LoopEvent.draw, false)]) =
      loop ([(LoopEvent.draw, false)] ++ [(LoopEvent.quit, false)]) ∧
    (loop ([(LoopEvent.draw, false)] ++ (LoopEvent.quit, false) ::
        [(LoopEvent.draw, false)])).2 = ExitReason.quitEvent :=
  ⟨(C8_quit_terminates [(LoopEvent.draw, false)] false
      [(LoopEvent.draw, false)]).1,
   (C8_quit_terminates [(LoopEvent.draw, false)] false
      [(LoopEvent.draw, false)]).2 (by decide)⟩

/-- C9 counterexample: `stagingBuffer.unmap()` is the last statement of
`update`'s try block, with no `finally`: when the present step throws, the
map step has completed but the unmap is skipped — the staging buffer is not
released on that exit path. -/
theorem C9_unmap_counterexample :
    UpdateStage.mapAwait ∈ executedStages (some UpdateStage.canvasPresent) ∧
    UpdateStage.unmapStaging ∉
      executedStages (some UpdateStage.canvasPresent) := by
  decide

/-- C9 (amended): the staging buffer's mapping is released only on the
success path: `unmap()` runs when no step fails, and a failure at any step
of `update()` (map, encode, texture upload, present, …) skips it, leaving
the buffer mapped (it is reclaimed only by garbage collection). -/
theorem C9_unmap_success_only :
    UpdateStage.unmapStaging ∈ executedStages none ∧
    (∀ s ∈ updateStages, UpdateStage.unmapStaging ∉ executedStages (some s)) := by
  decide

theorem C9_unmap_success_only_witness :
    UpdateStage.unmapStaging ∈ executedStages none ∧
    UpdateStage.unmapStaging ∉ executedStages (some UpdateStage.saveImage) :=
  ⟨C9_unmap_success_only.1,
   C9_unmap_success_only.2 UpdateStage.saveImage (by decide)⟩

/-- C10: on every termination path — normal loop exit, Quit,
event-stream closure, or a fatal startup failure (no adapter, device
request failure) — the process exits with status 0 (`Deno.exit(0)` in the
top-level `finally`); a fatal error is reported on the console exactly when
startup failed, but never changes the exit status. -/
theorem C10_exit_status_zero (s : StartupResult)
    (events : List (LoopEvent × Bool)) :
    (runMain s events).1 = 0 ∧
    ((runMain s events).2 = true ↔ s ≠ StartupResult.ok) := by
  cases s <;> simp [runMain]
